import Mathlib

/-!
Verification development for the granitic RDBMS client core.

The repository provides the behavioural test suite for the `rdbms` package
(the mock driver, the mock query manager and the expectations placed on the
client) together with the written design of the client itself.  The client
implementation is embedded here: operations whose code is present in the
repository (the mock driver, the test query-manager proxy, the test fixtures)
are translated directly from that source, while the client pipeline itself is
modelled from the specification, as marked on each definition.

Machine integers (`int64`) are modelled as `Int`; `float64` driver values are
carried as opaque payloads (no floating-point arithmetic is performed anywhere
in the modelled layer, values are only moved from a result column into a
target field).
-/

namespace Rdbms

/-- Driver-level values as they appear in the mock driver's row data:
64-bit integers, strings, booleans, opaque float payloads, timestamps,
byte slices and the nilable-string wrapper type used by the tests. -/
inductive DrvValue where
  | intV (i : Int)
  | strV (s : String)
  | boolV (b : Bool)
  | floatV (payload : Nat)
  | timeV (t : Nat)
  | bytesV (bs : List Nat)
  | nilStrV (s : Option String)
deriving DecidableEq, Repr

/-- One reflected field of a struct parameter source: the field name, an
optional alternate key from a tag, whether the field is excluded, and the
field value. -/
structure StructField where
  name : String
  tag : Option String
  skip : Bool
  value : DrvValue
deriving DecidableEq, Repr

/-- Modelled from the spec: a parameter source is either a tagged struct or a
string-keyed mapping. -/
inductive ParamSource where
  | fromStruct (fields : List StructField)
  | fromMap (entries : List (String × DrvValue))
deriving DecidableEq, Repr

/-- Modelled from the spec: the key/value entries a single source contributes.
A struct source exposes every non-excluded field, keyed by the tag name when
one is present and by the field name otherwise; a mapping source contributes
every pair verbatim. -/
def ParamSource.entries : ParamSource → List (String × DrvValue)
  | .fromStruct fs => (fs.filter (fun f => !f.skip)).map (fun f => (f.tag.getD f.name, f.value))
  | .fromMap es => es

/-- Association-list lookup returning the value of the first entry whose key
matches, mirroring lookup in a Go map (keys are unique in a real map). -/
def lookupKV {α : Type} : List (String × α) → String → Option α
  | [], _ => none
  | e :: rest, k => if e.1 = k then some e.2 else lookupKV rest k

/-- Association-list update mirroring Go map assignment: replace the first
entry with the given key, or append a fresh entry when the key is absent. -/
def putKV {α : Type} : List (String × α) → String → α → List (String × α)
  | [], k, v => [(k, v)]
  | e :: rest, k, v => if e.1 = k then (k, v) :: rest else e :: putKV rest k v

/-- First-some-wins choice on options, used to express lookup through layered
maps. -/
def orElseO {α : Type} (a b : Option α) : Option α :=
  match a with
  | some v => some v
  | none => b

/-- Modelled from the spec: fold one source's entries into the accumulated
mapping, each entry overwriting any earlier value held under its key. -/
def mergeInto : List (String × DrvValue) → List (String × DrvValue) → List (String × DrvValue)
  | m, [] => m
  | m, e :: rest => mergeInto (putKV m e.1 e.2) rest

/-- Modelled from the spec: fold every source, in argument order, into the
accumulated mapping. -/
def mergeAll : List (String × DrvValue) → List ParamSource → List (String × DrvValue)
  | m, [] => m
  | m, s :: rest => mergeAll (mergeInto m s.entries) rest

/-- Modelled from the spec: merge a sequence of parameter sources into one
flat mapping, starting from the empty mapping; later sources overwrite
earlier ones on key collision. -/
def mergeParamSources (ss : List ParamSource) : List (String × DrvValue) :=
  mergeAll [] ss

/-- The value for a key contributed by the latest entry overall, scanning the
flattened entry lists from the end: this is the "later source wins" value. -/
def lastEntry (es : List (String × DrvValue)) (k : String) : Option DrvValue :=
  lookupKV es.reverse k

/-- All entries of all sources, flattened in argument order. -/
def flatEntries (ss : List ParamSource) : List (String × DrvValue) :=
  (ss.map ParamSource.entries).flatten

/-! ## Transaction state machine and client state -/

/-- Modelled from the spec: a client is either outside any transaction or
holds exactly one active transaction handle. -/
inductive TxState where
  | noTransaction
  | inTransaction (handle : Nat)
deriving DecidableEq, Repr

/-- Modelled from the spec: the strategy an insert uses to report the
generated identifier: the driver-reported last-insert id, or a secondary
returning-clause query. -/
inductive InsertStrategy where
  | withReturnedId
  | returningIdQuery
deriving DecidableEq, Repr

/-- Transaction options passed to StartTransactionWithOptions; the mock
driver ignores them, so they are carried opaquely. -/
structure TxOptions where
  isolation : Nat := 0
  readOnly : Bool := false
deriving DecidableEq, Repr

/-- Modelled from the spec: the per-client mutable state of an RdbmsClient —
the transaction state (with a counter to mint fresh handles), the client-local
temporary-query registry, the optional cancellation context and the insert
identifier strategy.  The pooled connection handle is shared and carried by
the driver state, not the client. -/
structure RdbmsClient where
  txState : TxState
  txCount : Nat
  tempQueries : List (String × String)
  ctx : Option Nat
  insertFunc : InsertStrategy
deriving DecidableEq, Repr

/-- Mirrors the constructor used throughout the test file: a fresh client with
no transaction, no temporary queries and no context. -/
def newRdbmsClient (f : InsertStrategy) : RdbmsClient :=
  { txState := .noTransaction
    txCount := 0
    tempQueries := []
    ctx := none
    insertFunc := f }

/-- Modelled from the spec: starting a transaction is legal only from the
NoTransaction state; when a transaction is already active the call fails with
an error and performs no state change.  The mock driver's Begin always
succeeds, so the success path unconditionally moves to InTransaction with a
fresh handle. -/
def startTransaction (c : RdbmsClient) : Option String × RdbmsClient :=
  match c.txState with
  | .inTransaction _ => (some "transaction already active", c)
  | .noTransaction =>
    (none, { c with txState := .inTransaction c.txCount, txCount := c.txCount + 1 })

/-- Modelled from the spec: identical legality to startTransaction, carrying
explicit transaction options (ignored by the mock driver). -/
def startTransactionWithOptions (c : RdbmsClient) (_opts : TxOptions) :
    Option String × RdbmsClient :=
  match c.txState with
  | .inTransaction _ => (some "transaction already active", c)
  | .noTransaction =>
    (none, { c with txState := .inTransaction c.txCount, txCount := c.txCount + 1 })

/-- Modelled from the spec: commit is legal only from InTransaction and
returns to NoTransaction regardless of commit outcome; with no active
transaction it fails with an error and changes nothing. -/
def commitTransaction (c : RdbmsClient) : Option String × RdbmsClient :=
  match c.txState with
  | .noTransaction => (some "no active transaction", c)
  | .inTransaction _ => (none, { c with txState := .noTransaction })

/-- Modelled from the spec: rollback is symmetric to commit. -/
def rollback (c : RdbmsClient) : Option String × RdbmsClient :=
  match c.txState with
  | .noTransaction => (some "no active transaction", c)
  | .inTransaction _ => (none, { c with txState := .noTransaction })

/-- Modelled from the spec: register a literal query text under a
caller-chosen identifier in the client-local temporary registry. -/
def registerTempQuery (c : RdbmsClient) (qid text : String) : RdbmsClient :=
  { c with tempQueries := putKV c.tempQueries qid text }

/-- Modelled from the spec: remove an identifier from the temporary
registry. -/
def deleteTempQuery (c : RdbmsClient) (qid : String) : RdbmsClient :=
  { c with tempQueries := c.tempQueries.filter (fun e => !(e.1 = qid)) }

/-! ## The test query-manager proxy (translated from the test source) -/

/-- State of the testQueryManagerProxy from the test file: the parameters it
last received and the query text it last returned. -/
structure QMState where
  lastParams : Option (List (String × DrvValue))
  lastQueryReturned : String
deriving DecidableEq, Repr

/-- The reset method of the proxy. -/
def qmReset (_st : QMState) : QMState :=
  { lastParams := none, lastQueryReturned := "" }

/-- BuildQueryFromId of the test proxy: records the parameters, fails on the
identifier ERROR (recording an empty last query), and otherwise returns the
identifier itself as the rendered query. -/
def qmBuildQueryFromId (_st : QMState) (qid : String) (params : List (String × DrvValue)) :
    Except String String × QMState :=
  if qid = "ERROR" then
    (.error "Forced error", { lastParams := some params, lastQueryReturned := "" })
  else
    (.ok qid, { lastParams := some params, lastQueryReturned := qid })

/-- FragmentFromId of the test proxy: always returns the identifier itself. -/
def qmFragmentFromId (st : QMState) (qid : String) : Except String String × QMState :=
  (.ok qid, { st with lastQueryReturned := qid })

/-- Modelled from the spec: query resolution first consults the client-local
temporary registry and returns the registered literal unconditionally (the
query manager is not consulted and the parameters are ignored); otherwise it
delegates to the query manager with the merged parameters. -/
def resolveQuery (c : RdbmsClient) (st : QMState) (qid : String)
    (params : List (String × DrvValue)) : Except String String × QMState :=
  match lookupKV c.tempQueries qid with
  | some text => (.ok text, st)
  | none => qmBuildQueryFromId st qid params

/-! ## The mock driver (translated from the test source) -/

/-- State of the mockDriver from the test file: the column names and row data
the next query will serve, and whether the next statement is forced to
fail. -/
structure MockDriver where
  colNames : List String
  rowData : List (List DrvValue)
  forceError : Bool
deriving DecidableEq, Repr

/-- The consumed method of the mock driver: clears the staged data and the
forced-error flag. -/
def MockDriver.consumed (_d : MockDriver) : MockDriver :=
  { colNames := [], rowData := [], forceError := false }

/-- A driver execution result, as produced by mockResult: a last-insert id
and an affected-row count. -/
structure MockResult where
  lid : Int
  ra : Int
deriving DecidableEq, Repr

/-- A query result, as produced by mockRows: the column names and the row
data. -/
structure MockRows where
  cols : List String
  data : List (List DrvValue)
deriving DecidableEq, Repr

/-- Exec of the mock statement: a forced error consumes the driver and fails;
otherwise it consumes the driver and reports one affected row with
last-insert id 1. -/
def stmtExec (d : MockDriver) : Except String MockResult × MockDriver :=
  if d.forceError then (.error "Forced error", d.consumed)
  else (.ok { lid := 1, ra := 1 }, d.consumed)

/-- Query of the mock statement: a forced error consumes the driver and
fails; otherwise the staged column names and row data are served and the
driver is consumed. -/
def stmtQuery (d : MockDriver) : Except String MockRows × MockDriver :=
  if d.forceError then (.error "Forced error", d.consumed)
  else (.ok { cols := d.colNames, data := d.rowData }, d.consumed)

/-! ## Row binder (modelled from the spec) -/

/-- The declared type of a bind-target field, covering the field types of the
testTarget fixture: string, int64, float64, bool, byte slice, time, the
nilable wrappers and an embedded struct. -/
inductive FieldType where
  | ftString
  | ftInt64
  | ftFloat64
  | ftBool
  | ftByteArray
  | ftTime
  | ftNilString
  | ftNilBool
  | ftStruct
deriving DecidableEq, Repr

/-- A typed value held by a bind-target field. -/
inductive FieldVal where
  | fvString (s : String)
  | fvInt64 (i : Int)
  | fvFloat64 (payload : Nat)
  | fvBool (b : Bool)
  | fvBytes (bs : List Nat)
  | fvTime (t : Nat)
  | fvNilString (s : Option String)
  | fvNilBool (b : Option Bool)
  | fvStruct
deriving DecidableEq, Repr

/-- Modelled from the spec: destination-type-aware coercion of a driver value
into a field of the declared type.  Integer columns populate int64 fields,
float columns float64 fields, time columns time fields, string columns string
or nilable-string fields, byte-slice columns byte-slice fields, boolean
columns bool or nilable-bool fields, and a nilable-string driver value
populates a nilable-string field.  Every other combination cannot be coerced
and yields none (a hard binding error).  Cross-numeric conversion between
integer and float columns is not modelled (floating point). -/
def coerce : DrvValue → FieldType → Option FieldVal
  | .intV i, .ftInt64 => some (.fvInt64 i)
  | .strV s, .ftString => some (.fvString s)
  | .strV s, .ftNilString => some (.fvNilString (some s))
  | .boolV b, .ftBool => some (.fvBool b)
  | .boolV b, .ftNilBool => some (.fvNilBool (some b))
  | .floatV p, .ftFloat64 => some (.fvFloat64 p)
  | .timeV t, .ftTime => some (.fvTime t)
  | .bytesV bs, .ftByteArray => some (.fvBytes bs)
  | .nilStrV s, .ftNilString => some (.fvNilString s)
  | _, _ => none

/-- One field of a bind target: the field name, an optional column-alias tag,
the declared type and the current value. -/
structure TargetField where
  name : String
  colAlias : Option String
  ftype : FieldType
  val : FieldVal
deriving DecidableEq, Repr

/-- A bind target is the ordered list of its fields. -/
def BindTarget : Type := List TargetField

/-- Index of the first field satisfying a predicate. -/
def findFieldIdxFrom (p : TargetField → Bool) : List TargetField → Option Nat
  | [] => none
  | f :: rest => if p f then some 0 else (findFieldIdxFrom p rest).map (· + 1)

/-- Modelled from the spec: locate the field a column binds to, checking for
an explicit column-alias tag first and falling back to an exact field-name
match. -/
def findFieldIdx (t : List TargetField) (col : String) : Option Nat :=
  match findFieldIdxFrom (fun f => f.colAlias = some col) t with
  | some i => some i
  | none => findFieldIdxFrom (fun f => f.name = col) t

/-- Replace the value stored at one field position, leaving every other field
and the field's own name, alias and type untouched. -/
def updateFieldAt : List TargetField → Nat → FieldVal → List TargetField
  | [], _, _ => []
  | f :: rest, 0, fv => { f with val := fv } :: rest
  | f :: rest, Nat.succ n, fv => f :: updateFieldAt rest n fv

/-- The field at one position of the target, when in range. -/
def getField : List TargetField → Nat → Option TargetField
  | [], _ => none
  | f :: _, 0 => some f
  | _ :: rest, Nat.succ n => getField rest n

/-- Modelled from the spec: bind one column's value into the target.  A
column matching no field is silently ignored; a matched column whose value
cannot be coerced into the field's declared type is a hard error; otherwise
the coerced value is stored in the matched field. -/
def bindColumn (t : List TargetField) (col : String) (v : DrvValue) :
    Except String (List TargetField) :=
  match findFieldIdx t col with
  | none => .ok t
  | some i =>
    match getField t i with
    | none => .ok t
    | some f =>
      match coerce v f.ftype with
      | none => .error ("cannot bind column " ++ col)
      | some fv => .ok (updateFieldAt t i fv)

/-- Modelled from the spec: bind one result row into the target, column by
column; the first unbindable column aborts the whole row. -/
def bindRow (t : List TargetField) (cols : List String) (row : List DrvValue) :
    Except String (List TargetField) :=
  (cols.zip row).foldlM (fun acc cv => bindColumn acc cv.1 cv.2) t

/-- Modelled from the spec: bind every row into a fresh copy of the prototype
target; any row's binding error discards all previously bound rows. -/
def bindRows (proto : List TargetField) (cols : List String)
    (rows : List (List DrvValue)) : Except String (List (List TargetField)) :=
  rows.mapM (fun r => bindRow proto cols r)

/-- Modelled from the spec: single-row binding.  Zero rows is the normal
not-found outcome (target untouched); more than one row is an error; exactly
one row is bound into the caller's target. -/
def bindSingle (t : List TargetField) (cols : List String)
    (rows : List (List DrvValue)) : Except String (Bool × List TargetField) :=
  match rows with
  | [] => .ok (false, t)
  | [r] => (bindRow t cols r).map (fun t2 => (true, t2))
  | _ :: _ :: _ => .error "multiple rows returned for single-row select"

/-! ## Client operations (modelled from the spec) -/

/-- A driver-facing call, recorded for observability: either a statement
execution or a row-returning query, with the resolved query text. -/
inductive DbCall where
  | execCall (q : String)
  | queryCall (q : String)
deriving DecidableEq, Repr

/-- The world a client operation acts on: the mock driver state, the query
manager state, and a ghost log of the driver calls issued so far. -/
structure DbEnv where
  drv : MockDriver
  qm : QMState
  calls : List DbCall
deriving DecidableEq, Repr

/-- Execute an already-resolved statement through the driver, recording the
call. -/
def execResolved (env : DbEnv) (q : String) : Except String MockResult × DbEnv :=
  let r := stmtExec env.drv
  (r.1, { env with drv := r.2, calls := env.calls ++ [.execCall q] })

/-- Run an already-resolved query through the driver, recording the call. -/
def queryResolved (env : DbEnv) (q : String) : Except String MockRows × DbEnv :=
  let r := stmtQuery env.drv
  (r.1, { env with drv := r.2, calls := env.calls ++ [.queryCall q] })

/-- Modelled from the spec: BuildQueryFromQIdParams merges the parameter
sources and resolves the query id to its final text, consulting the temp
registry first and the query manager otherwise. -/
def buildQueryFromQIdParams (c : RdbmsClient) (env : DbEnv) (qid : String)
    (ss : List ParamSource) : Except String String × DbEnv :=
  let rq := resolveQuery c env.qm qid (mergeParamSources ss)
  (rq.1, { env with qm := rq.2 })

/-- Modelled from the spec: FindFragment returns the raw fragment from the
query manager. -/
def findFragment (_c : RdbmsClient) (env : DbEnv) (qid : String) :
    Except String String × DbEnv :=
  let rq := qmFragmentFromId env.qm qid
  (rq.1, { env with qm := rq.2 })

/-- Modelled from the spec: the shared pipeline of every exec-style operation
(delete, update, plain insert): resolve the query with the given parameters,
then execute it through the driver; a resolution error surfaces immediately
with no driver call. -/
def execQIdWithParams (c : RdbmsClient) (env : DbEnv) (qid : String)
    (params : List (String × DrvValue)) : Except String MockResult × DbEnv :=
  let rq := resolveQuery c env.qm qid params
  match rq.1 with
  | .error e => (.error e, { env with qm := rq.2 })
  | .ok q => execResolved { env with qm := rq.2 } q

/-- Modelled from the spec: DeleteQIdParams merges the sources and executes
the delete. -/
def deleteQIdParams (c : RdbmsClient) (env : DbEnv) (qid : String)
    (ss : List ParamSource) : Except String MockResult × DbEnv :=
  execQIdWithParams c env qid (mergeParamSources ss)

/-- Modelled from the spec: DeleteQIdParam executes the delete with a single
ad-hoc key/value parameter. -/
def deleteQIdParam (c : RdbmsClient) (env : DbEnv) (qid k : String)
    (v : DrvValue) : Except String MockResult × DbEnv :=
  execQIdWithParams c env qid [(k, v)]

/-- Modelled from the spec: UpdateQIdParams merges the sources and executes
the update. -/
def updateQIdParams (c : RdbmsClient) (env : DbEnv) (qid : String)
    (ss : List ParamSource) : Except String MockResult × DbEnv :=
  execQIdWithParams c env qid (mergeParamSources ss)

/-- Modelled from the spec: UpdateQIdParam executes the update with a single
ad-hoc key/value parameter. -/
def updateQIdParam (c : RdbmsClient) (env : DbEnv) (qid k : String)
    (v : DrvValue) : Except String MockResult × DbEnv :=
  execQIdWithParams c env qid [(k, v)]

/-- Modelled from the spec: InsertQIdParams merges the sources and executes
the insert, returning the raw driver result. -/
def insertQIdParams (c : RdbmsClient) (env : DbEnv) (qid : String)
    (ss : List ParamSource) : Except String MockResult × DbEnv :=
  execQIdWithParams c env qid (mergeParamSources ss)

/-- Modelled from the spec: InsertCaptureQIdParams resolves and runs the
insert and captures the generated identifier according to the client's
insert strategy: either the driver-reported last-insert id of the execution
result, or the single integer returned by a returning-clause query. -/
def insertCaptureQIdParams (c : RdbmsClient) (env : DbEnv) (qid : String)
    (ss : List ParamSource) : Except String Int × DbEnv :=
  let rq := resolveQuery c env.qm qid (mergeParamSources ss)
  match rq.1 with
  | .error e => (.error e, { env with qm := rq.2 })
  | .ok q =>
    match c.insertFunc with
    | .withReturnedId =>
      let er := execResolved { env with qm := rq.2 } q
      match er.1 with
      | .error e => (.error e, er.2)
      | .ok res => (.ok res.lid, er.2)
    | .returningIdQuery =>
      let qr := queryResolved { env with qm := rq.2 } q
      match qr.1 with
      | .error e => (.error e, qr.2)
      | .ok rows =>
        match rows.data with
        | (DrvValue.intV i :: _) :: _ => (.ok i, qr.2)
        | _ => (.error "no generated id returned", qr.2)

/-- Modelled from the spec: the shared pipeline of every row-returning select
(SelectQId and friends): resolve, then query the driver. -/
def selectQIdWithParams (c : RdbmsClient) (env : DbEnv) (qid : String)
    (params : List (String × DrvValue)) : Except String MockRows × DbEnv :=
  let rq := resolveQuery c env.qm qid params
  match rq.1 with
  | .error e => (.error e, { env with qm := rq.2 })
  | .ok q => queryResolved { env with qm := rq.2 } q

/-- Modelled from the spec: SelectBindQIdParams runs the select and binds
every returned row into a fresh copy of the prototype target; the result
sequence preserves row order and is empty (with no error) when the query
returns no rows. -/
def selectBindQIdParams (c : RdbmsClient) (env : DbEnv) (qid : String)
    (proto : List TargetField) (ss : List ParamSource) :
    Except String (List (List TargetField)) × DbEnv :=
  let sr := selectQIdWithParams c env qid (mergeParamSources ss)
  match sr.1 with
  | .error e => (.error e, sr.2)
  | .ok rows => (bindRows proto rows.cols rows.data, sr.2)

/-- Modelled from the spec: SelectBindQId is the no-parameter variant. -/
def selectBindQId (c : RdbmsClient) (env : DbEnv) (qid : String)
    (proto : List TargetField) : Except String (List (List TargetField)) × DbEnv :=
  let sr := selectQIdWithParams c env qid []
  match sr.1 with
  | .error e => (.error e, sr.2)
  | .ok rows => (bindRows proto rows.cols rows.data, sr.2)

/-- Modelled from the spec: the single-row select pipeline shared by the
SelectBindSingle variants.  It returns the Go-style triple (found, error,
target): zero rows is (false, none) with the target untouched, a binding
failure or a multi-row result set is an error with found = false and no
partially bound target surfaced, and exactly one cleanly bound row is
(true, none) with the updated target. -/
def selectBindSingleWithParams (c : RdbmsClient) (env : DbEnv) (qid : String)
    (t : List TargetField) (params : List (String × DrvValue)) :
    (Bool × Option String × List TargetField) × DbEnv :=
  let sr := selectQIdWithParams c env qid params
  match sr.1 with
  | .error e => ((false, some e, t), sr.2)
  | .ok rows =>
    match bindSingle t rows.cols rows.data with
    | .error e => ((false, some e, t), sr.2)
    | .ok fb => ((fb.1, none, fb.2), sr.2)

/-- Modelled from the spec: SelectBindSingleQId is the no-parameter
single-row variant. -/
def selectBindSingleQId (c : RdbmsClient) (env : DbEnv) (qid : String)
    (t : List TargetField) : (Bool × Option String × List TargetField) × DbEnv :=
  selectBindSingleWithParams c env qid t []

/-- Modelled from the spec: SelectBindSingleQIdParam is the single ad-hoc
key/value variant. -/
def selectBindSingleQIdParam (c : RdbmsClient) (env : DbEnv) (qid k : String)
    (v : DrvValue) (t : List TargetField) :
    (Bool × Option String × List TargetField) × DbEnv :=
  selectBindSingleWithParams c env qid t [(k, v)]

/-- Modelled from the spec: SelectBindSingleQIdParams is the variadic
parameter-source single-row variant. -/
def selectBindSingleQIdParams (c : RdbmsClient) (env : DbEnv) (qid : String)
    (t : List TargetField) (ss : List ParamSource) :
    (Bool × Option String × List TargetField) × DbEnv :=
  selectBindSingleWithParams c env qid t (mergeParamSources ss)

/-- Modelled from the spec: ExistingIdOrInsertParams first runs the check
query; a returned row supplies the existing integer id directly and the
insert path never executes; an empty check result runs the configured insert
path and reports the newly generated id. -/
def existingIdOrInsertParams (c : RdbmsClient) (env : DbEnv)
    (checkQId insertQId : String) (ss : List ParamSource) :
    Except String Int × DbEnv :=
  let sr := selectQIdWithParams c env checkQId (mergeParamSources ss)
  match sr.1 with
  | .error e => (.error e, sr.2)
  | .ok rows =>
    match rows.data with
    | [] => insertCaptureQIdParams c sr.2 insertQId ss
    | (DrvValue.intV i :: _) :: _ => (.ok i, sr.2)
    | _ => (.error "check query did not return an integer id", sr.2)

/-! ## Test fixtures (translated from the test source) -/

/-- The testParam struct source of the test file: SParam and NSParam keep
their field names; IParam carries the dbparam tag IOV. -/
def testParamSource : ParamSource :=
  .fromStruct
    [ { name := "SParam", tag := none, skip := false, value := .strV "S" }
    , { name := "NSParam", tag := none, skip := false, value := .nilStrV (some "NS") }
    , { name := "IParam", tag := some "IOV", skip := false, value := .intV 44 } ]

/-- The map source of testStandardParams: NSParam (colliding with the struct
field) and BParam. -/
def testMapSource : ParamSource :=
  .fromMap [("NSParam", .strV "NS1"), ("BParam", .boolV false)]

/-- The two sources returned by testStandardParams, in argument order. -/
def testStandardParams : List ParamSource :=
  [testParamSource, testMapSource]

/-- The testTarget fixture of the test file, as a freshly allocated (zero
valued) bind target; the Aliased field carries the column alias
ColumnAlias. -/
def testTargetProto : List TargetField :=
  [ { name := "StrResult", colAlias := none, ftype := .ftString, val := .fvString "" }
  , { name := "Int64Result", colAlias := none, ftype := .ftInt64, val := .fvInt64 0 }
  , { name := "Float64Result", colAlias := none, ftype := .ftFloat64, val := .fvFloat64 0 }
  , { name := "BoolResult", colAlias := none, ftype := .ftBool, val := .fvBool false }
  , { name := "ByteArrayResult", colAlias := none, ftype := .ftByteArray, val := .fvBytes [] }
  , { name := "TimeResult", colAlias := none, ftype := .ftTime, val := .fvTime 0 }
  , { name := "Aliased", colAlias := some "ColumnAlias", ftype := .ftString, val := .fvString "" }
  , { name := "StructResult", colAlias := none, ftype := .ftStruct, val := .fvStruct } ]

/-- A quiescent driver: nothing staged, no forced error (the state the mock
is left in after being consumed). -/
def idleDriver : MockDriver :=
  { colNames := [], rowData := [], forceError := false }

/-- A freshly reset environment over the mock driver and proxy. -/
def freshEnv : DbEnv :=
  { drv := idleDriver
  , qm := { lastParams := none, lastQueryReturned := "" }
  , calls := [] }

/-- The static shape of a target field: everything the binder's field lookup
and coercion legality depend on (name, column alias and declared type); the
stored value is excluded. -/
def TargetField.shape (f : TargetField) : String × Option String × FieldType :=
  (f.name, f.colAlias, f.ftype)

/-- A column/value pair the target cannot absorb: the column matches a field
whose declared type the driver value cannot be coerced into. -/
def failsOn (t : List TargetField) (cv : String × DrvValue) : Prop :=
  ∃ i f, findFieldIdx t cv.1 = some i ∧ getField t i = some f
    ∧ coerce cv.2 f.ftype = none

/-- Whether a fallible outcome is the error case (the Go pattern of a non-nil
error accompanied by a nil result). -/
def isErr {α : Type} : Except String α → Bool
  | .error _ => true
  | .ok _ => false

/-! ## Lemmas about lookup and merging -/

theorem orElseO_none_right {α : Type} (a : Option α) : orElseO a none = a := by
  cases a <;> rfl

theorem orElseO_assoc {α : Type} (a b c : Option α) :
    orElseO (orElseO a b) c = orElseO a (orElseO b c) := by
  cases a <;> rfl

theorem orElseO_ite {α : Type} (c : Prop) [Decidable c] (x : α) (b : Option α) :
    orElseO (if c then some x else none) b = if c then some x else b := by
  split <;> rfl

theorem lookupKV_append {α : Type} (xs ys : List (String × α)) (k : String) :
    lookupKV (xs ++ ys) k = orElseO (lookupKV xs k) (lookupKV ys k) := by
  induction xs with
  | nil => simp [lookupKV, orElseO]
  | cons e rest ih =>
    by_cases h : e.1 = k
    · simp [lookupKV, h, orElseO]
    · simp [lookupKV, h, ih]

theorem lookupKV_putKV {α : Type} (m : List (String × α)) (k : String) (v : α)
    (k2 : String) :
    lookupKV (putKV m k v) k2 = if k = k2 then some v else lookupKV m k2 := by
  induction m with
  | nil => simp [putKV, lookupKV]
  | cons e rest ih =>
    by_cases h1 : e.1 = k
    · by_cases h2 : k = k2
      · simp [putKV, lookupKV, h1, h2]
      · have h3 : ¬ e.1 = k2 := by rw [h1]; exact h2
        simp [putKV, lookupKV, h1, h2, h3]
    · have hput : putKV (e :: rest) k v = e :: putKV rest k v := by
        simp [putKV, h1]
      by_cases h2 : e.1 = k2
      · have h3 : ¬ k = k2 := by
          intro hk
          exact h1 (by rw [hk]; exact h2)
        rw [hput]
        simp [lookupKV, h2, h3]
      · rw [hput]
        simp [lookupKV, h2, ih]

theorem lookupKV_isSome {α : Type} (l : List (String × α)) (k : String) :
    (lookupKV l k).isSome = true ↔ ∃ v, (k, v) ∈ l := by
  induction l with
  | nil => simp [lookupKV]
  | cons e rest ih =>
    by_cases h : e.1 = k
    · constructor
      · intro _
        refine ⟨e.2, ?_⟩
        have he : (k, e.2) = e := by
          rw [← h]
        rw [he]
        exact List.mem_cons_self e rest
      · intro _
        simp [lookupKV, h]
    · rw [show lookupKV (e :: rest) k = lookupKV rest k from by simp [lookupKV, h]]
      rw [ih]
      constructor
      · intro ⟨v, hv⟩
        exact ⟨v, List.mem_cons_of_mem e hv⟩
      · intro ⟨v, hv⟩
        rcases List.mem_cons.mp hv with h1 | h2
        · exact absurd (by rw [← h1]) h
        · exact ⟨v, h2⟩

theorem lastEntry_cons (e : String × DrvValue) (rest : List (String × DrvValue))
    (k : String) :
    lastEntry (e :: rest) k
      = orElseO (lastEntry rest k) (if e.1 = k then some e.2 else none) := by
  simp only [lastEntry, List.reverse_cons, lookupKV_append]
  rfl

theorem lastEntry_append (xs ys : List (String × DrvValue)) (k : String) :
    lastEntry (xs ++ ys) k = orElseO (lastEntry ys k) (lastEntry xs k) := by
  simp only [lastEntry, List.reverse_append, lookupKV_append]

theorem lastEntry_isSome (es : List (String × DrvValue)) (k : String) :
    (lastEntry es k).isSome = true ↔ ∃ v, (k, v) ∈ es := by
  rw [lastEntry, lookupKV_isSome]
  constructor
  · intro ⟨v, hv⟩
    exact ⟨v, List.mem_reverse.mp hv⟩
  · intro ⟨v, hv⟩
    exact ⟨v, List.mem_reverse.mpr hv⟩

theorem lookupKV_mergeInto (es : List (String × DrvValue))
    (m : List (String × DrvValue)) (k : String) :
    lookupKV (mergeInto m es) k = orElseO (lastEntry es k) (lookupKV m k) := by
  induction es generalizing m with
  | nil => simp [mergeInto, lastEntry, lookupKV, orElseO]
  | cons e rest ih =>
    rw [show mergeInto m (e :: rest) = mergeInto (putKV m e.1 e.2) rest from rfl]
    rw [ih, lookupKV_putKV, lastEntry_cons, orElseO_assoc, orElseO_ite]

theorem flatEntries_cons (s : ParamSource) (rest : List ParamSource) :
    flatEntries (s :: rest) = s.entries ++ flatEntries rest := by
  simp [flatEntries]

theorem lookupKV_mergeAll (ss : List ParamSource) (m : List (String × DrvValue))
    (k : String) :
    lookupKV (mergeAll m ss) k = orElseO (lastEntry (flatEntries ss) k) (lookupKV m k) := by
  induction ss generalizing m with
  | nil => simp [mergeAll, flatEntries, lastEntry, lookupKV, orElseO]
  | cons s rest ih =>
    rw [show mergeAll m (s :: rest) = mergeAll (mergeInto m s.entries) rest from rfl]
    rw [ih, lookupKV_mergeInto, flatEntries_cons, lastEntry_append, orElseO_assoc]

/-- Lookup in the merged mapping is exactly the "latest entry wins" lookup
over the flattened, argument-ordered entry lists of all sources. -/
theorem lookupKV_mergeParamSources (ss : List ParamSource) (k : String) :
    lookupKV (mergeParamSources ss) k = lastEntry (flatEntries ss) k := by
  rw [mergeParamSources, lookupKV_mergeAll]
  rw [show lookupKV ([] : List (String × DrvValue)) k = none from rfl, orElseO_none_right]

theorem mem_flatEntries (ss : List ParamSource) (k : String) (v : DrvValue) :
    (k, v) ∈ flatEntries ss ↔ ∃ s ∈ ss, (k, v) ∈ s.entries := by
  simp [flatEntries, List.mem_flatten]

/-! ## Claim theorems -/

/-- C1: for every sequence of parameter sources passed to a parameter-merging
operation such as BuildQueryFromQIdParams, the merged mapping handed to the
query manager is exactly mergeParamSources of the sources; a key is present
in that mapping exactly when some source contributes it, and the value found
under any key is the one contributed by the latest entry of the latest source
providing that key (later sources win on collision). -/
theorem c1_param_merge_union_last_wins (c : RdbmsClient) (env : DbEnv)
    (qid : String) (ss : List ParamSource) (k : String)
    (hq : lookupKV c.tempQueries qid = none) :
    (buildQueryFromQIdParams c env qid ss).2.qm.lastParams
        = some (mergeParamSources ss)
    ∧ ((lookupKV (mergeParamSources ss) k).isSome = true
        ↔ ∃ s ∈ ss, ∃ v, (k, v) ∈ s.entries)
    ∧ lookupKV (mergeParamSources ss) k = lastEntry (flatEntries ss) k := by
  refine ⟨?_, ?_, lookupKV_mergeParamSources ss k⟩
  · have hres : resolveQuery c env.qm qid (mergeParamSources ss)
        = qmBuildQueryFromId env.qm qid (mergeParamSources ss) := by
      simp [resolveQuery, hq]
    by_cases he : qid = "ERROR"
    · subst he
      simp [buildQueryFromQIdParams, hres, qmBuildQueryFromId]
    · simp [buildQueryFromQIdParams, hres, qmBuildQueryFromId, he]
  · rw [lookupKV_mergeParamSources, lastEntry_isSome]
    constructor
    · intro ⟨v, hv⟩
      obtain ⟨s, hs, hmem⟩ := (mem_flatEntries ss k v).mp hv
      exact ⟨s, hs, v, hmem⟩
    · intro ⟨s, hs, v, hmem⟩
      exact ⟨v, (mem_flatEntries ss k v).mpr ⟨s, hs, hmem⟩⟩

/-- Witness for C1 at the test fixture: the client is fresh (no temporary
queries), the sources are the struct/map pair of testStandardParams and the
key is the colliding NSParam. -/
theorem c1_param_merge_union_last_wins_witness :
    (buildQueryFromQIdParams (newRdbmsClient .withReturnedId) freshEnv "OK"
        testStandardParams).2.qm.lastParams
        = some (mergeParamSources testStandardParams)
    ∧ ((lookupKV (mergeParamSources testStandardParams) "NSParam").isSome = true
        ↔ ∃ s ∈ testStandardParams, ∃ v, ("NSParam", v) ∈ s.entries)
    ∧ lookupKV (mergeParamSources testStandardParams) "NSParam"
        = lastEntry (flatEntries testStandardParams) "NSParam" :=
  c1_param_merge_union_last_wins (newRdbmsClient .withReturnedId) freshEnv "OK"
    testStandardParams "NSParam" rfl

/-- C2: starting a transaction (with or without options) on a client already
in a transaction fails with a non-nil error and changes nothing: the client
state is untouched and the previously active transaction handle remains the
active one. -/
theorem c2_start_in_transaction_fails_unchanged (c : RdbmsClient) (h : Nat)
    (opts : TxOptions) (hc : c.txState = .inTransaction h) :
    ((startTransaction c).1.isSome = true
      ∧ (startTransaction c).2 = c
      ∧ (startTransaction c).2.txState = .inTransaction h)
    ∧ ((startTransactionWithOptions c opts).1.isSome = true
      ∧ (startTransactionWithOptions c opts).2 = c
      ∧ (startTransactionWithOptions c opts).2.txState = .inTransaction h) := by
  constructor <;>
    simp [startTransaction, startTransactionWithOptions, hc]

/-- Witness for C2: a fresh client moved into a transaction by
startTransaction, with default options. -/
theorem c2_start_in_transaction_fails_unchanged_witness :
    (((startTransaction (startTransaction (newRdbmsClient .withReturnedId)).2).1.isSome = true
      ∧ (startTransaction (startTransaction (newRdbmsClient .withReturnedId)).2).2
          = (startTransaction (newRdbmsClient .withReturnedId)).2
      ∧ (startTransaction (startTransaction (newRdbmsClient .withReturnedId)).2).2.txState
          = .inTransaction 0)
    ∧ ((startTransactionWithOptions (startTransaction (newRdbmsClient .withReturnedId)).2 {}).1.isSome = true
      ∧ (startTransactionWithOptions (startTransaction (newRdbmsClient .withReturnedId)).2 {}).2
          = (startTransaction (newRdbmsClient .withReturnedId)).2
      ∧ (startTransactionWithOptions (startTransaction (newRdbmsClient .withReturnedId)).2 {}).2.txState
          = .inTransaction 0)) :=
  c2_start_in_transaction_fails_unchanged
    (startTransaction (newRdbmsClient .withReturnedId)).2 0 {} rfl

/-- C3: committing or rolling back with no active transaction fails with a
non-nil error and leaves the client unchanged, and a subsequent
StartTransaction on that unchanged client still succeeds. -/
theorem c3_commit_rollback_without_transaction (c : RdbmsClient)
    (hc : c.txState = .noTransaction) :
    (commitTransaction c).1.isSome = true
    ∧ (commitTransaction c).2 = c
    ∧ (rollback c).1.isSome = true
    ∧ (rollback c).2 = c
    ∧ (startTransaction (commitTransaction c).2).1 = none
    ∧ (startTransaction (rollback c).2).1 = none := by
  simp [commitTransaction, rollback, startTransaction, hc]

/-- Witness for C3: a freshly constructed client, which starts with no
transaction. -/
theorem c3_commit_rollback_without_transaction_witness :
    (commitTransaction (newRdbmsClient .withReturnedId)).1.isSome = true
    ∧ (commitTransaction (newRdbmsClient .withReturnedId)).2 = newRdbmsClient .withReturnedId
    ∧ (rollback (newRdbmsClient .withReturnedId)).1.isSome = true
    ∧ (rollback (newRdbmsClient .withReturnedId)).2 = newRdbmsClient .withReturnedId
    ∧ (startTransaction (commitTransaction (newRdbmsClient .withReturnedId)).2).1 = none
    ∧ (startTransaction (rollback (newRdbmsClient .withReturnedId)).2).1 = none :=
  c3_commit_rollback_without_transaction (newRdbmsClient .withReturnedId) rfl

/-- C8: a query id registered in the client-local temporary registry resolves
to its registered literal text with the query-manager state untouched (the
query manager is not consulted), whatever parameters are supplied; after the
id is removed from the registry, resolution of that id is exactly the
query-manager call (the external query manager is consulted again).  At the
operation level, BuildQueryFromQIdParams on the registered id returns the
literal text and leaves the query-manager state of the environment
unchanged. -/
theorem c8_temp_query_registry (c : RdbmsClient) (env : DbEnv)
    (qid text : String) (ps : List (String × DrvValue)) (ss : List ParamSource) :
    resolveQuery (registerTempQuery c qid text) env.qm qid ps = (.ok text, env.qm)
    ∧ (buildQueryFromQIdParams (registerTempQuery c qid text) env qid ss).1 = .ok text
    ∧ (buildQueryFromQIdParams (registerTempQuery c qid text) env qid ss).2.qm = env.qm
    ∧ resolveQuery (deleteTempQuery (registerTempQuery c qid text) qid) env.qm qid ps
        = qmBuildQueryFromId env.qm qid ps := by
  have hreg : lookupKV (registerTempQuery c qid text).tempQueries qid = some text := by
    simp [registerTempQuery, lookupKV_putKV]
  have hdel : lookupKV (deleteTempQuery (registerTempQuery c qid text) qid).tempQueries qid
      = none := by
    simp only [deleteTempQuery]
    generalize (registerTempQuery c qid text).tempQueries = l
    induction l with
    | nil => rfl
    | cons e rest ih =>
      by_cases h : e.1 = qid
      · simpa [List.filter_cons, h] using ih
      · simpa [List.filter_cons, h, lookupKV] using ih
  refine ⟨?_, ?_, ?_, ?_⟩
  · simp [resolveQuery, hreg]
  · simp [buildQueryFromQIdParams, resolveQuery, hreg]
  · simp [buildQueryFromQIdParams, resolveQuery, hreg]
  · simp [resolveQuery, hdel]

/-! ## Lemmas about the row binder -/

theorem findFieldIdxFrom_updateFieldAt (p : TargetField → Bool)
    (hp : ∀ f fv, p { f with val := fv } = p f)
    (t : List TargetField) (i : Nat) (fv : FieldVal) :
    findFieldIdxFrom p (updateFieldAt t i fv) = findFieldIdxFrom p t := by
  induction t generalizing i with
  | nil => rfl
  | cons f rest ih =>
    cases i with
    | zero => simp [updateFieldAt, findFieldIdxFrom, hp f fv]
    | succ n => simp [updateFieldAt, findFieldIdxFrom, ih n]

theorem findFieldIdx_updateFieldAt (t : List TargetField) (i : Nat) (fv : FieldVal)
    (col : String) :
    findFieldIdx (updateFieldAt t i fv) col = findFieldIdx t col := by
  unfold findFieldIdx
  rw [findFieldIdxFrom_updateFieldAt (fun f => f.colAlias = some col)
        (fun _ _ => rfl) t i fv,
      findFieldIdxFrom_updateFieldAt (fun f => f.name = col)
        (fun _ _ => rfl) t i fv]

theorem getField_updateFieldAt_ftype (t : List TargetField) (i : Nat)
    (fv : FieldVal) (j : Nat) :
    (getField (updateFieldAt t i fv) j).map TargetField.ftype
      = (getField t j).map TargetField.ftype := by
  induction t generalizing i j with
  | nil => rfl
  | cons f rest ih =>
    cases i with
    | zero =>
      cases j with
      | zero => rfl
      | succ m => rfl
    | succ n =>
      cases j with
      | zero => rfl
      | succ m => simpa [updateFieldAt, getField] using ih n m

/-- A successful bindColumn step preserves every unbindable column/value
pair: field positions, names, aliases and declared types are unchanged, only
a stored value moves. -/
theorem failsOn_bindColumn (t t2 : List TargetField) (col : String) (v : DrvValue)
    (h : bindColumn t col v = .ok t2) (cv : String × DrvValue)
    (hf : failsOn t cv) : failsOn t2 cv := by
  obtain ⟨j, g, hfind, hget, hco⟩ := hf
  cases hidx : findFieldIdx t col with
  | none =>
    simp [bindColumn, hidx] at h
    subst h
    exact ⟨j, g, hfind, hget, hco⟩
  | some i =>
    cases hgf : getField t i with
    | none =>
      simp [bindColumn, hidx, hgf] at h
      subst h
      exact ⟨j, g, hfind, hget, hco⟩
    | some f =>
      cases hcf : coerce v f.ftype with
      | none => simp [bindColumn, hidx, hgf, hcf] at h
      | some fv =>
        simp [bindColumn, hidx, hgf, hcf] at h
        subst h
        refine ⟨j, ?_⟩
        have h2 : (getField (updateFieldAt t i fv) j).map TargetField.ftype
            = some g.ftype := by
          rw [getField_updateFieldAt_ftype, hget]
          rfl
        cases hg2 : getField (updateFieldAt t i fv) j with
        | none => rw [hg2] at h2; cases h2
        | some g2 =>
          rw [hg2] at h2
          have hft : g2.ftype = g.ftype := by
            simpa using h2
          refine ⟨g2, ?_, rfl, ?_⟩
          · rw [findFieldIdx_updateFieldAt]
            exact hfind
          · rw [hft]
            exact hco

theorem bindColumn_error_of_failsOn (t : List TargetField) (cv : String × DrvValue)
    (hf : failsOn t cv) :
    bindColumn t cv.1 cv.2 = .error ("cannot bind column " ++ cv.1) := by
  obtain ⟨i, f, hfind, hget, hco⟩ := hf
  simp [bindColumn, hfind, hget, hco]

/-- If any column/value pair of the row cannot be coerced into its matched
field, binding the whole row fails. -/
theorem foldBind_error_of_failsOn (cvs : List (String × DrvValue))
    (t : List TargetField) (h : ∃ cv ∈ cvs, failsOn t cv) :
    ∃ e, cvs.foldlM (fun acc cv => bindColumn acc cv.1 cv.2) t = Except.error e := by
  induction cvs generalizing t with
  | nil =>
    obtain ⟨cv, hm, _⟩ := h
    cases hm
  | cons cv0 rest ih =>
    obtain ⟨cv, hm, hf⟩ := h
    rcases List.mem_cons.mp hm with rfl | hm2
    · refine ⟨"cannot bind column " ++ cv.1, ?_⟩
      rw [List.foldlM_cons, bindColumn_error_of_failsOn t cv hf]
      rfl
    · cases hbc : bindColumn t cv0.1 cv0.2 with
      | error e =>
        refine ⟨e, ?_⟩
        rw [List.foldlM_cons, hbc]
        rfl
      | ok t2 =>
        obtain ⟨e, he⟩ := ih t2 ⟨cv, hm2, failsOn_bindColumn t t2 cv0.1 cv0.2 hbc cv hf⟩
        refine ⟨e, ?_⟩
        rw [List.foldlM_cons, hbc]
        simpa using he

theorem bindRow_error_of_failsOn (t : List TargetField) (cols : List String)
    (row : List DrvValue) (h : ∃ cv ∈ cols.zip row, failsOn t cv) :
    ∃ e, bindRow t cols row = Except.error e :=
  foldBind_error_of_failsOn (cols.zip row) t h

theorem bindRows_nil (proto : List TargetField) (cols : List String) :
    bindRows proto cols [] = .ok [] :=
  rfl

/-! ## Claim theorems about select and bind behaviour -/

/-- C4: a select against a result set with zero rows is never an error: the
multi-row bind forms return an empty sequence with no error, and the
single-row bind forms return found = false with no error (and the caller's
target untouched).  Stated over the shared pipelines, which every QId/Param/
Params variant reduces to. -/
theorem c4_zero_rows_is_not_an_error (c : RdbmsClient) (env : DbEnv)
    (qid q1 q2 : String) (proto t : List TargetField) (ss : List ParamSource)
    (params : List (String × DrvValue))
    (hres1 : (resolveQuery c env.qm qid (mergeParamSources ss)).1 = .ok q1)
    (hres2 : (resolveQuery c env.qm qid params).1 = .ok q2)
    (hferr : env.drv.forceError = false)
    (hrows : env.drv.rowData = []) :
    (selectBindQIdParams c env qid proto ss).1 = .ok []
    ∧ (selectBindSingleWithParams c env qid t params).1 = (false, none, t) := by
  constructor
  · simp [selectBindQIdParams, selectQIdWithParams, queryResolved, stmtQuery,
          hres1, hferr, hrows, bindRows_nil]
  · simp [selectBindSingleWithParams, selectQIdWithParams, queryResolved,
          stmtQuery, hres2, hferr, hrows, bindSingle]

/-- Witness for C4: a fresh client and an environment whose driver serves
zero rows, with the query ids of the test and the testStandardParams
sources. -/
theorem c4_zero_rows_is_not_an_error_witness :
    (selectBindQIdParams (newRdbmsClient .withReturnedId) freshEnv "SBQ"
        testTargetProto testStandardParams).1 = .ok []
    ∧ (selectBindSingleWithParams (newRdbmsClient .withReturnedId) freshEnv "SBQ"
        testTargetProto []).1 = (false, none, testTargetProto) :=
  c4_zero_rows_is_not_an_error (newRdbmsClient .withReturnedId) freshEnv "SBQ"
    "SBQ" "SBQ" testTargetProto testTargetProto testStandardParams [] rfl rfl rfl rfl

/-- C6: when some result column's driver value cannot be coerced into the
declared type of the field it matches, a single-row bind returns found =
false together with a non-nil error, and the caller's target is returned
exactly as it was — no partially bound row is surfaced.  Stated over the
shared single-row pipeline, which every SelectBindSingle variant reduces
to. -/
theorem c6_uncoercible_column_fails_single_bind (c : RdbmsClient) (env : DbEnv)
    (qid q : String) (t : List TargetField) (row : List DrvValue)
    (params : List (String × DrvValue))
    (hres : (resolveQuery c env.qm qid params).1 = .ok q)
    (hferr : env.drv.forceError = false)
    (hrows : env.drv.rowData = [row])
    (hfail : ∃ cv ∈ env.drv.colNames.zip row, failsOn t cv) :
    ∃ e, (selectBindSingleWithParams c env qid t params).1 = (false, some e, t) := by
  obtain ⟨e, he⟩ := bindRow_error_of_failsOn t env.drv.colNames row hfail
  refine ⟨e, ?_⟩
  simp [selectBindSingleWithParams, selectQIdWithParams, queryResolved,
        stmtQuery, hres, hferr, hrows, bindSingle, he, Except.map]

/-- Witness for C6 at the input of the illegal-result test: the column
TimeResult arrives carrying a nilable-string value while the matched field of
testTarget is a time field. -/
theorem c6_uncoercible_column_fails_single_bind_witness :
    ∃ e, (selectBindSingleWithParams (newRdbmsClient .withReturnedId)
        { drv := { colNames := ["TimeResult"]
                 , rowData := [[.nilStrV (some "AA")]]
                 , forceError := false }
        , qm := { lastParams := none, lastQueryReturned := "" }
        , calls := [] } "SBSQ" testTargetProto []).1
      = (false, some e, testTargetProto) :=
  c6_uncoercible_column_fails_single_bind (newRdbmsClient .withReturnedId)
    { drv := { colNames := ["TimeResult"]
             , rowData := [[.nilStrV (some "AA")]]
             , forceError := false }
    , qm := { lastParams := none, lastQueryReturned := "" }
    , calls := [] } "SBSQ" "SBSQ" testTargetProto [.nilStrV (some "AA")] []
    rfl rfl rfl
    ⟨("TimeResult", .nilStrV (some "AA")), by simp,
      5, { name := "TimeResult", colAlias := none, ftype := .ftTime, val := .fvTime 0 },
      rfl, rfl, rfl⟩

/-- C9: a single-row select whose underlying query produces more than one row
returns a non-nil error (with found = false and the target untouched) rather
than silently binding the first row.  Stated over the shared single-row
pipeline, which every SelectBindSingle variant reduces to. -/
theorem c9_multi_row_single_select_errors (c : RdbmsClient) (env : DbEnv)
    (qid q : String) (t : List TargetField) (r1 r2 : List DrvValue)
    (rest : List (List DrvValue)) (params : List (String × DrvValue))
    (hres : (resolveQuery c env.qm qid params).1 = .ok q)
    (hferr : env.drv.forceError = false)
    (hrows : env.drv.rowData = r1 :: r2 :: rest) :
    ∃ e, (selectBindSingleWithParams c env qid t params).1 = (false, some e, t) := by
  refine ⟨"multiple rows returned for single-row select", ?_⟩
  simp [selectBindSingleWithParams, selectQIdWithParams, queryResolved,
        stmtQuery, hres, hferr, hrows, bindSingle]

/-- Witness for C9 at the input of the two-row test: columns StrResult and
Int64Result with the rows (okay, 1) and (not, 2), bound through the
single-ad-hoc-parameter variant's parameter list. -/
theorem c9_multi_row_single_select_errors_witness :
    ∃ e, (selectBindSingleWithParams (newRdbmsClient .withReturnedId)
        { drv := { colNames := ["StrResult", "Int64Result"]
                 , rowData := [[.strV "okay", .intV 1], [.strV "not", .intV 2]]
                 , forceError := false }
        , qm := { lastParams := none, lastQueryReturned := "" }
        , calls := [] } "SBSQ" testTargetProto [("p1", .strV "v1")]).1
      = (false, some e, testTargetProto) :=
  c9_multi_row_single_select_errors (newRdbmsClient .withReturnedId)
    { drv := { colNames := ["StrResult", "Int64Result"]
             , rowData := [[.strV "okay", .intV 1], [.strV "not", .intV 2]]
             , forceError := false }
    , qm := { lastParams := none, lastQueryReturned := "" }
    , calls := [] } "SBSQ" "SBSQ" testTargetProto
    [.strV "okay", .intV 1] [.strV "not", .intV 2] [] [("p1", .strV "v1")]
    rfl rfl rfl

/-- C10: a single-row bind that finds no rows returns found = false with no
error and hands back the caller's bind target completely unmodified: the
returned target is the very value passed in, so a fresh target stays
zero-valued.  Stated over the shared single-row pipeline, which every
SelectBindSingle variant reduces to. -/
theorem c10_not_found_leaves_target_untouched (c : RdbmsClient) (env : DbEnv)
    (qid q : String) (t : List TargetField) (params : List (String × DrvValue))
    (hres : (resolveQuery c env.qm qid params).1 = .ok q)
    (hferr : env.drv.forceError = false)
    (hrows : env.drv.rowData = []) :
    (selectBindSingleWithParams c env qid t params).1 = (false, none, t) := by
  simp [selectBindSingleWithParams, selectQIdWithParams, queryResolved,
        stmtQuery, hres, hferr, hrows, bindSingle]

/-- Witness for C10: a consumed driver (no staged rows) and the fresh
zero-valued testTarget. -/
theorem c10_not_found_leaves_target_untouched_witness :
    (selectBindSingleWithParams (newRdbmsClient .withReturnedId) freshEnv
        "SBSQ" testTargetProto []).1 = (false, none, testTargetProto) :=
  c10_not_found_leaves_target_untouched (newRdbmsClient .withReturnedId)
    freshEnv "SBSQ" "SBSQ" testTargetProto [] rfl rfl rfl

/-- C5: ExistingIdOrInsertParams with the find-or-create semantics of the
test: when the check query returns one row containing the integer 8, the
output id is 8 and the insert path never executes (the ghost call log gains
only the check query); when the check query returns no rows, the insert path
executes and the output id is the driver-reported generated id (the mock
driver reports last-insert id 1), the call log gaining the check query
followed by the insert execution. -/
theorem c5_existing_id_or_insert (c : RdbmsClient) (env1 env2 : DbEnv)
    (ss : List ParamSource)
    (hq1 : lookupKV c.tempQueries "CQ" = none)
    (hq2 : lookupKV c.tempQueries "IQ" = none)
    (hfunc : c.insertFunc = .withReturnedId)
    (hferr1 : env1.drv.forceError = false)
    (hrow1 : env1.drv.rowData = [[DrvValue.intV 8]])
    (hferr2 : env2.drv.forceError = false)
    (hrow2 : env2.drv.rowData = []) :
    ((existingIdOrInsertParams c env1 "CQ" "IQ" ss).1 = .ok 8
      ∧ (existingIdOrInsertParams c env1 "CQ" "IQ" ss).2.calls
          = env1.calls ++ [.queryCall "CQ"])
    ∧ ((existingIdOrInsertParams c env2 "CQ" "IQ" ss).1 = .ok 1
      ∧ (existingIdOrInsertParams c env2 "CQ" "IQ" ss).2.calls
          = env2.calls ++ [.queryCall "CQ", .execCall "IQ"]) := by
  have hres1 : ∀ st ps, resolveQuery c st "CQ" ps
      = (.ok "CQ", { lastParams := some ps, lastQueryReturned := "CQ" }) := by
    intro st ps
    simp [resolveQuery, hq1, qmBuildQueryFromId]
  have hres2 : ∀ st ps, resolveQuery c st "IQ" ps
      = (.ok "IQ", { lastParams := some ps, lastQueryReturned := "IQ" }) := by
    intro st ps
    simp [resolveQuery, hq2, qmBuildQueryFromId]
  constructor
  · constructor <;>
      simp [existingIdOrInsertParams, selectQIdWithParams, queryResolved,
            stmtQuery, hres1, hferr1, hrow1]
  · constructor <;>
      simp [existingIdOrInsertParams, selectQIdWithParams, queryResolved,
            stmtQuery, hres1, hres2, hferr2, hrow2, insertCaptureQIdParams,
            hfunc, execResolved, stmtExec, MockDriver.consumed]

/-- Witness for C5: a fresh client with the returned-id insert strategy, one
environment whose check query serves the single row (8) and one whose check
query serves no rows, with the testStandardParams sources. -/
theorem c5_existing_id_or_insert_witness :
    ((existingIdOrInsertParams (newRdbmsClient .withReturnedId)
        { drv := { colNames := ["Int64Result"]
                 , rowData := [[DrvValue.intV 8]]
                 , forceError := false }
        , qm := { lastParams := none, lastQueryReturned := "" }
        , calls := [] } "CQ" "IQ" testStandardParams).1 = .ok 8
      ∧ (existingIdOrInsertParams (newRdbmsClient .withReturnedId)
        { drv := { colNames := ["Int64Result"]
                 , rowData := [[DrvValue.intV 8]]
                 , forceError := false }
        , qm := { lastParams := none, lastQueryReturned := "" }
        , calls := [] } "CQ" "IQ" testStandardParams).2.calls
          = [] ++ [.queryCall "CQ"])
    ∧ ((existingIdOrInsertParams (newRdbmsClient .withReturnedId) freshEnv
          "CQ" "IQ" testStandardParams).1 = .ok 1
      ∧ (existingIdOrInsertParams (newRdbmsClient .withReturnedId) freshEnv
          "CQ" "IQ" testStandardParams).2.calls
          = [] ++ [.queryCall "CQ", .execCall "IQ"]) :=
  c5_existing_id_or_insert (newRdbmsClient .withReturnedId)
    { drv := { colNames := ["Int64Result"]
             , rowData := [[DrvValue.intV 8]]
             , forceError := false }
    , qm := { lastParams := none, lastQueryReturned := "" }
    , calls := [] } freshEnv testStandardParams rfl rfl rfl rfl rfl rfl rfl

/-- C7: when the driver layer reports an error, every select, insert, update
and delete variant returns a non-nil error with a nil or zero result and no
partial result: the exec-style variants and the row-returning or binding
selects all surface the error case of the result type, and the single-row
bind forms report found = false with the target untouched.  No retry occurs:
each operation issues its one driver call and returns. -/
theorem c7_driver_error_yields_error_and_no_result (c : RdbmsClient)
    (env : DbEnv) (qid k : String) (v : DrvValue) (ss : List ParamSource)
    (proto t : List TargetField)
    (hq : lookupKV c.tempQueries qid = none)
    (hne : ¬ qid = "ERROR")
    (hferr : env.drv.forceError = true) :
    isErr (deleteQIdParam c env qid k v).1 = true
    ∧ isErr (deleteQIdParams c env qid ss).1 = true
    ∧ isErr (updateQIdParam c env qid k v).1 = true
    ∧ isErr (updateQIdParams c env qid ss).1 = true
    ∧ isErr (insertQIdParams c env qid ss).1 = true
    ∧ isErr (insertCaptureQIdParams c env qid ss).1 = true
    ∧ isErr (selectQIdWithParams c env qid (mergeParamSources ss)).1 = true
    ∧ isErr (selectBindQId c env qid proto).1 = true
    ∧ isErr (selectBindQIdParams c env qid proto ss).1 = true
    ∧ (selectBindSingleQId c env qid t).1 = (false, some "Forced error", t)
    ∧ (selectBindSingleQIdParams c env qid t ss).1
        = (false, some "Forced error", t) := by
  have hres : ∀ ps, resolveQuery c env.qm qid ps
      = (.ok qid, { lastParams := some ps, lastQueryReturned := qid }) := by
    intro ps
    simp [resolveQuery, hq, qmBuildQueryFromId, hne]
  refine ⟨?_, ?_, ?_, ?_, ?_, ?_, ?_, ?_, ?_, ?_, ?_⟩
  · simp [deleteQIdParam, execQIdWithParams, execResolved, stmtExec, hres,
          hferr, isErr]
  · simp [deleteQIdParams, execQIdWithParams, execResolved, stmtExec, hres,
          hferr, isErr]
  · simp [updateQIdParam, execQIdWithParams, execResolved, stmtExec, hres,
          hferr, isErr]
  · simp [updateQIdParams, execQIdWithParams, execResolved, stmtExec, hres,
          hferr, isErr]
  · simp [insertQIdParams, execQIdWithParams, execResolved, stmtExec, hres,
          hferr, isErr]
  · cases hf : c.insertFunc <;>
      simp [insertCaptureQIdParams, hf, execResolved, queryResolved, stmtExec,
            stmtQuery, hres, hferr, isErr]
  · simp [selectQIdWithParams, queryResolved, stmtQuery, hres, hferr, isErr]
  · simp [selectBindQId, selectQIdWithParams, queryResolved, stmtQuery, hres,
          hferr, isErr]
  · simp [selectBindQIdParams, selectQIdWithParams, queryResolved, stmtQuery,
          hres, hferr, isErr]
  · simp [selectBindSingleQId, selectBindSingleWithParams, selectQIdWithParams,
          queryResolved, stmtQuery, hres, hferr]
  · simp [selectBindSingleQIdParams, selectBindSingleWithParams,
          selectQIdWithParams, queryResolved, stmtQuery, hres, hferr]

/-- Witness for C7: a fresh client and an environment whose driver is forced
to fail, at the delete test's query id and parameters. -/
theorem c7_driver_error_yields_error_and_no_result_witness :
    isErr (deleteQIdParam (newRdbmsClient .withReturnedId)
        { drv := { colNames := [], rowData := [], forceError := true }
        , qm := { lastParams := none, lastQueryReturned := "" }
        , calls := [] } "DQP" "p1" (.strV "v1")).1 = true
    ∧ isErr (deleteQIdParams (newRdbmsClient .withReturnedId)
        { drv := { colNames := [], rowData := [], forceError := true }
        , qm := { lastParams := none, lastQueryReturned := "" }
        , calls := [] } "DQP" testStandardParams).1 = true
    ∧ isErr (updateQIdParam (newRdbmsClient .withReturnedId)
        { drv := { colNames := [], rowData := [], forceError := true }
        , qm := { lastParams := none, lastQueryReturned := "" }
        , calls := [] } "DQP" "p1" (.strV "v1")).1 = true
    ∧ isErr (updateQIdParams (newRdbmsClient .withReturnedId)
        { drv := { colNames := [], rowData := [], forceError := true }
        , qm := { lastParams := none, lastQueryReturned := "" }
        , calls := [] } "DQP" testStandardParams).1 = true
    ∧ isErr (insertQIdParams (newRdbmsClient .withReturnedId)
        { drv := { colNames := [], rowData := [], forceError := true }
        , qm := { lastParams := none, lastQueryReturned := "" }
        , calls := [] } "DQP" testStandardParams).1 = true
    ∧ isErr (insertCaptureQIdParams (newRdbmsClient .withReturnedId)
        { drv := { colNames := [], rowData := [], forceError := true }
        , qm := { lastParams := none, lastQueryReturned := "" }
        , calls := [] } "DQP" testStandardParams).1 = true
    ∧ isErr (selectQIdWithParams (newRdbmsClient .withReturnedId)
        { drv := { colNames := [], rowData := [], forceError := true }
        , qm := { lastParams := none, lastQueryReturned := "" }
        , calls := [] } "DQP" (mergeParamSources testStandardParams)).1 = true
    ∧ isErr (selectBindQId (newRdbmsClient .withReturnedId)
        { drv := { colNames := [], rowData := [], forceError := true }
        , qm := { lastParams := none, lastQueryReturned := "" }
        , calls := [] } "DQP" testTargetProto).1 = true
    ∧ isErr (selectBindQIdParams (newRdbmsClient .withReturnedId)
        { drv := { colNames := [], rowData := [], forceError := true }
        , qm := { lastParams := none, lastQueryReturned := "" }
        , calls := [] } "DQP" testTargetProto testStandardParams).1 = true
    ∧ (selectBindSingleQId (newRdbmsClient .withReturnedId)
        { drv := { colNames := [], rowData := [], forceError := true }
        , qm := { lastParams := none, lastQueryReturned := "" }
        , calls := [] } "DQP" testTargetProto).1
        = (false, some "Forced error", testTargetProto)
    ∧ (selectBindSingleQIdParams (newRdbmsClient .withReturnedId)
        { drv := { colNames := [], rowData := [], forceError := true }
        , qm := { lastParams := none, lastQueryReturned := "" }
        , calls := [] } "DQP" testTargetProto testStandardParams).1
        = (false, some "Forced error", testTargetProto) :=
  c7_driver_error_yields_error_and_no_result (newRdbmsClient .withReturnedId)
    { drv := { colNames := [], rowData := [], forceError := true }
    , qm := { lastParams := none, lastQueryReturned := "" }
    , calls := [] } "DQP" "p1" (.strV "v1") testStandardParams testTargetProto
    testTargetProto rfl (by decide) rfl

end Rdbms
